import Mathlib

/-!
Shallow embedding of `src/js/theme-switcher.js` (SourceMation portal theme
switcher) and verification of its specification.

The script keeps two pieces of mutable browser state: the `data-theme`
attribute on `document.documentElement` and the `localStorage` entry under
the key `sm-portal-theme`.  We model the attribute as an `Option String`
(absent or a string value), and `localStorage` as an `Option String`
together with an availability flag: every access to an unavailable storage
throws, which we model with `Except Unit`.
-/

namespace ThemeSwitcher

def STORAGE_KEY : String := "sm-portal-theme"

def THEME_LIGHT : String := "light"

def THEME_DARK : String := "dark"

/-- The `localStorage` collaborator: `available = false` means every access
throws (storage disabled / privacy mode); `value` is the content stored under
`STORAGE_KEY` (`none` models the key being absent, i.e. `getItem` returning
`null`). -/
structure Storage where
  available : Bool
  value : Option String
deriving DecidableEq, Repr

/-- `localStorage.getItem(STORAGE_KEY)`: returns the stored value (or `null`)
when storage is available, throws otherwise. -/
def Storage.getItem (s : Storage) : Except Unit (Option String) :=
  if s.available then Except.ok s.value else Except.error ()

/-- `localStorage.setItem(STORAGE_KEY, v)`: overwrites the stored value when
storage is available, throws otherwise. -/
def Storage.setItem (s : Storage) (v : String) : Except Unit Storage :=
  if s.available then Except.ok { s with value := some v } else Except.error ()

/-- The `window.matchMedia` collaborator: whether `window.matchMedia` exists
at all, and whether `(prefers-color-scheme: dark)` currently matches. -/
structure SystemSignal where
  matchMediaAvailable : Bool
  prefersDark : Bool
deriving DecidableEq, Repr

/-- The document state observed and mutated by the script: the value of the
`data-theme` attribute on `document.documentElement` (`none` when the
attribute is absent, in which case `getAttribute` returns `null`). -/
structure DocState where
  dataTheme : Option String
deriving DecidableEq, Repr

/-- The fallback branch of `getStoredTheme`:
`window.matchMedia && window.matchMedia('(prefers-color-scheme: dark)').matches
? THEME_DARK : THEME_LIGHT` (the source returns `THEME_DARK` inside the `if`
and `THEME_LIGHT` after it). -/
def systemFallback (sys : SystemSignal) : String :=
  if sys.matchMediaAvailable && sys.prefersDark then THEME_DARK else THEME_LIGHT

/-- `getStoredTheme()`: reads the stored value inside `try { ... }`; if it is
exactly `'dark'` or `'light'` it is returned; otherwise (including when the
read throws, which the `catch` swallows with a console warning) the system
preference is consulted. -/
def getStoredTheme (storage : Storage) (sys : SystemSignal) : String :=
  match storage.getItem with
  | Except.ok (some stored) =>
      if stored = THEME_DARK ∨ stored = THEME_LIGHT then stored
      else systemFallback sys
  | Except.ok none => systemFallback sys
  | Except.error _ => systemFallback sys

/-- `saveTheme(theme)`: `localStorage.setItem` inside `try { ... }`; a failing
write is swallowed (`console.warn`) and leaves storage unchanged. -/
def saveTheme (storage : Storage) (theme : String) : Storage :=
  match storage.setItem theme with
  | Except.ok s => s
  | Except.error _ => storage

/-- `applyTheme(theme)`: sets `data-theme="dark"` when `theme === 'dark'`,
otherwise removes the attribute. -/
def applyTheme (doc : DocState) (theme : String) : DocState :=
  if theme = THEME_DARK then { dataTheme := some "dark" }
  else { dataTheme := none }

/-- Result of `toggleTheme()`: the mutated document and storage, the list of
`themechange` events dispatched on `window` (payload = the new theme), and
the returned value. -/
structure ToggleResult where
  doc : DocState
  storage : Storage
  events : List String
  newTheme : String
deriving DecidableEq, Repr

/-- `toggleTheme()`: reads the current `data-theme` attribute, computes the
opposite theme (`currentTheme === 'dark' ? THEME_LIGHT : THEME_DARK`),
applies it, saves it, and dispatches one `themechange` event. -/
def toggleTheme (doc : DocState) (storage : Storage) : ToggleResult :=
  let currentTheme := doc.dataTheme
  let newTheme := if currentTheme = some "dark" then THEME_LIGHT else THEME_DARK
  { doc := applyTheme doc newTheme
    storage := saveTheme storage newTheme
    events := [newTheme]
    newTheme := newTheme }

/-- Result of the keydown listener attached in `initThemeSwitchers`. -/
structure KeydownResult where
  doc : DocState
  storage : Storage
  events : List String
  defaultPrevented : Bool
deriving DecidableEq, Repr

/-- The keydown listener attached to each `.theme-switcher` element:
`if (e.key === 'Enter' || e.key === ' ') { e.preventDefault(); toggleTheme(); }`. -/
def onSwitcherKeydown (key : String) (doc : DocState) (storage : Storage) :
    KeydownResult :=
  if key = "Enter" ∨ key = " " then
    let r := toggleTheme doc storage
    { doc := r.doc, storage := r.storage, events := r.events,
      defaultPrevented := true }
  else
    { doc := doc, storage := storage, events := [], defaultPrevented := false }

/-- JavaScript falsiness of `localStorage.getItem`'s result: `null` and the
empty string are falsy, every non-empty string is truthy. -/
def jsFalsy : Option String → Bool
  | none => true
  | some s => s = ""

/-- The media-query change listener installed by `watchSystemTheme`: it reads
`localStorage.getItem(STORAGE_KEY)` with no `try`/`catch` (so a storage
failure escapes the handler, modelled as `Except.error`), and applies the
system-derived theme only when the stored value is falsy (`!storedTheme`). -/
def handleSystemChange (doc : DocState) (storage : Storage)
    (eventMatches : Bool) : Except Unit DocState :=
  match storage.getItem with
  | Except.error e => Except.error e
  | Except.ok storedTheme =>
      if jsFalsy storedTheme then
        Except.ok (applyTheme doc (if eventMatches then THEME_DARK else THEME_LIGHT))
      else
        Except.ok doc

/-- `ThemeSwitcher.setTheme(theme)`: `applyTheme(theme); saveTheme(theme);`. -/
def setTheme (doc : DocState) (storage : Storage) (theme : String) :
    DocState × Storage :=
  (applyTheme doc theme, saveTheme storage theme)

/-- `ThemeSwitcher.getTheme()`: `getAttribute('data-theme') === 'dark' ?
THEME_DARK : THEME_LIGHT`. -/
def getTheme (doc : DocState) : String :=
  if doc.dataTheme = some "dark" then THEME_DARK else THEME_LIGHT

/-- The startup line `applyTheme(getStoredTheme());` executed before DOM
ready to prevent a flash of the wrong theme. -/
def startupApply (doc : DocState) (storage : Storage) (sys : SystemSignal) :
    DocState :=
  applyTheme doc (getStoredTheme storage sys)

/-- The marker invariant: whenever the `data-theme` attribute is present its
value is exactly `"dark"`. -/
def markerInvariant (doc : DocState) : Prop :=
  doc.dataTheme = none ∨ doc.dataTheme = some "dark"

instance (doc : DocState) : Decidable (markerInvariant doc) := by
  unfold markerInvariant; infer_instance

end ThemeSwitcher

namespace ThemeSwitcher

/-- Helper: `applyTheme` always leaves the marker absent or equal to
`"dark"`, whatever its input. -/
lemma markerInvariant_applyTheme (d : DocState) (t : String) :
    markerInvariant (applyTheme d t) := by
  unfold markerInvariant applyTheme
  by_cases h : t = THEME_DARK <;> simp [h]

/-- Helper: the system fallback always produces a valid enum value. -/
lemma systemFallback_mem (sys : SystemSignal) :
    systemFallback sys = THEME_LIGHT ∨ systemFallback sys = THEME_DARK := by
  unfold systemFallback
  cases hm : sys.matchMediaAvailable && sys.prefersDark <;> simp [hm]

/-- C4: `getStoredTheme` returns the persisted value when it equals exactly
`'dark'` or `'light'`; for every other stored state (key absent, corrupted
value, or storage access throwing) it returns `'dark'` exactly when the
system signal reports prefers-dark and `'light'` otherwise; its result is
always a valid enum value. -/
theorem getStoredTheme_spec (storage : Storage) (sys : SystemSignal) :
    (∀ v : String, storage.available = true → storage.value = some v →
      (v = THEME_DARK ∨ v = THEME_LIGHT) → getStoredTheme storage sys = v) ∧
    ((storage.available = false ∨ storage.value = none ∨
        (∃ v : String, storage.value = some v ∧ v ≠ THEME_DARK ∧ v ≠ THEME_LIGHT)) →
      getStoredTheme storage sys =
        if sys.matchMediaAvailable && sys.prefersDark then THEME_DARK
        else THEME_LIGHT) ∧
    (getStoredTheme storage sys = THEME_LIGHT ∨
      getStoredTheme storage sys = THEME_DARK) := by
  obtain ⟨avail, val⟩ := storage
  refine ⟨?_, ?_, ?_⟩
  · rintro v ha hv hval
    simp only at ha hv
    subst ha; subst hv
    rcases hval with rfl | rfl <;> rfl
  · rintro (ha | hv | ⟨v, hv, hd, hl⟩)
    · simp only at ha; subst ha; rfl
    · simp only at hv; subst hv
      cases avail <;> rfl
    · simp only at hv; subst hv
      cases avail
      · rfl
      · simp [getStoredTheme, Storage.getItem, systemFallback, hd, hl]
  · cases avail
    · have h : getStoredTheme ⟨false, val⟩ sys = systemFallback sys := rfl
      rw [h]; exact systemFallback_mem sys
    · cases val with
      | none =>
        have h : getStoredTheme ⟨true, none⟩ sys = systemFallback sys := rfl
        rw [h]; exact systemFallback_mem sys
      | some v =>
        by_cases hval : v = THEME_DARK ∨ v = THEME_LIGHT
        · rcases hval with rfl | rfl
          · right; rfl
          · left; rfl
        · push_neg at hval
          have h : getStoredTheme ⟨true, some v⟩ sys = systemFallback sys := by
            simp [getStoredTheme, Storage.getItem, hval.1, hval.2]
          rw [h]; exact systemFallback_mem sys

/-- C4 witness: a corrupted stored value `"blue"` with a dark-preferring
system yields `'dark'`. -/
theorem getStoredTheme_spec_witness :
    getStoredTheme ⟨true, some "blue"⟩ ⟨true, true⟩ = THEME_DARK := by
  have h := (getStoredTheme_spec ⟨true, some "blue"⟩ ⟨true, true⟩).2.1
    (Or.inr (Or.inr ⟨"blue", rfl, by decide, by decide⟩))
  simpa using h


/-- C5: with `'light'` stored, a system-preference change notification
reporting prefers-dark leaves the document marker unchanged. -/
theorem storedLight_blocks_system_dark (doc : DocState) :
    handleSystemChange doc ⟨true, some THEME_LIGHT⟩ true = Except.ok doc := by
  simp [handleSystemChange, Storage.getItem, jsFalsy, THEME_LIGHT]

/-- C6: for each valid theme value, when storage is available,
`saveTheme` followed by a fresh `getStoredTheme` returns that value. -/
theorem persist_roundtrip (s : Storage) (sys : SystemSignal) (t : String)
    (ht : t = THEME_LIGHT ∨ t = THEME_DARK) (hs : s.available = true) :
    getStoredTheme (saveTheme s t) sys = t := by
  obtain ⟨avail, val⟩ := s
  simp only at hs
  subst hs
  rcases ht with rfl | rfl <;> rfl

/-- C6 witness: saving `'dark'` into available storage, then resolving, yields
`'dark'` even when the system has no dark preference. -/
theorem persist_roundtrip_witness :
    getStoredTheme (saveTheme ⟨true, none⟩ THEME_DARK) ⟨false, false⟩
      = THEME_DARK :=
  persist_roundtrip ⟨true, none⟩ ⟨false, false⟩ THEME_DARK (Or.inr rfl) rfl

/-- C7: `applyTheme` is idempotent on every valid theme value, and applying
`'light'` twice leaves the marker absent after each of the two calls. -/
theorem applyTheme_idempotent (d : DocState) (t : String)
    (ht : t = THEME_LIGHT ∨ t = THEME_DARK) :
    applyTheme (applyTheme d t) t = applyTheme d t ∧
    (applyTheme d THEME_LIGHT).dataTheme = none ∧
    (applyTheme (applyTheme d THEME_LIGHT) THEME_LIGHT).dataTheme = none := by
  rcases ht with rfl | rfl <;> exact ⟨rfl, rfl, rfl⟩

/-- C7 witness: instantiated at a dark document and `'light'`. -/
theorem applyTheme_idempotent_witness :
    applyTheme (applyTheme ⟨some "dark"⟩ THEME_LIGHT) THEME_LIGHT
      = applyTheme ⟨some "dark"⟩ THEME_LIGHT ∧
    (applyTheme ⟨some "dark"⟩ THEME_LIGHT).dataTheme = none ∧
    (applyTheme (applyTheme ⟨some "dark"⟩ THEME_LIGHT) THEME_LIGHT).dataTheme
      = none :=
  applyTheme_idempotent ⟨some "dark"⟩ THEME_LIGHT (Or.inl rfl)

/-- C8: the keydown listener toggles the theme exactly when the key is
`'Enter'` or `' '`; in those cases the default is prevented and exactly one
toggle (one `themechange` event) happens; any other key leaves the document,
the storage and the default behaviour untouched. -/
theorem keydown_activation (key : String) (d : DocState) (s : Storage) :
    ((onSwitcherKeydown key d s).events ≠ [] ↔ (key = "Enter" ∨ key = " ")) ∧
    ((key = "Enter" ∨ key = " ") →
      (onSwitcherKeydown key d s).defaultPrevented = true ∧
      (onSwitcherKeydown key d s).doc = (toggleTheme d s).doc ∧
      (onSwitcherKeydown key d s).storage = (toggleTheme d s).storage ∧
      (onSwitcherKeydown key d s).events = [(toggleTheme d s).newTheme]) ∧
    (¬(key = "Enter" ∨ key = " ") →
      (onSwitcherKeydown key d s).doc = d ∧
      (onSwitcherKeydown key d s).storage = s ∧
      (onSwitcherKeydown key d s).events = [] ∧
      (onSwitcherKeydown key d s).defaultPrevented = false) := by
  by_cases h : key = "Enter" ∨ key = " " <;>
    simp [onSwitcherKeydown, h, toggleTheme]

/-- C8 witness: pressing space on a light document with empty storage toggles
once, emitting a single `themechange` event. -/
theorem keydown_activation_witness :
    (onSwitcherKeydown " " ⟨none⟩ ⟨true, none⟩).events
      = [(toggleTheme ⟨none⟩ ⟨true, none⟩).newTheme] :=
  ((keydown_activation " " ⟨none⟩ ⟨true, none⟩).2.1 (Or.inr rfl)).2.2.2

/-- C9: for every theme argument other than exactly `'dark'`,
`ThemeSwitcher.setTheme` removes the document marker yet writes the argument
verbatim to available storage; and when the argument is also not `'light'`, a
subsequent `getStoredTheme` ignores it and falls back to the system signal. -/
theorem setTheme_nonDark (d : DocState) (s : Storage) (t : String)
    (ht : t ≠ THEME_DARK) (hs : s.available = true) :
    (setTheme d s t).1.dataTheme = none ∧
    (setTheme d s t).2.value = some t ∧
    (t ≠ THEME_LIGHT → ∀ sys : SystemSignal,
      getStoredTheme (setTheme d s t).2 sys = systemFallback sys) := by
  obtain ⟨avail, val⟩ := s
  simp only at hs
  subst hs
  refine ⟨?_, ?_, ?_⟩
  · simp [setTheme, applyTheme, ht]
  · simp [setTheme, saveTheme, Storage.setItem]
  · intro hl sys
    simp [setTheme, saveTheme, Storage.setItem, getStoredTheme,
      Storage.getItem, ht, hl]

/-- C9 witness: `setTheme("blue")` on a dark document with empty available
storage removes the marker, stores `"blue"`, and a fresh resolution falls
back to the system signal. -/
theorem setTheme_nonDark_witness :
    (setTheme ⟨some "dark"⟩ ⟨true, none⟩ "blue").1.dataTheme = none ∧
    (setTheme ⟨some "dark"⟩ ⟨true, none⟩ "blue").2.value = some "blue" ∧
    getStoredTheme (setTheme ⟨some "dark"⟩ ⟨true, none⟩ "blue").2 ⟨true, true⟩
      = systemFallback ⟨true, true⟩ := by
  have h := setTheme_nonDark ⟨some "dark"⟩ ⟨true, none⟩ "blue"
    (by decide) rfl
  exact ⟨h.1, h.2.1, h.2.2 (by decide) ⟨true, true⟩⟩

/-- C10: every marker-mutating operation (startup application, `applyTheme`,
`toggleTheme`, `setTheme`, the keydown listener, and the system-change
handler) preserves the invariant that the `data-theme` attribute, whenever
present, is exactly `"dark"`; under that invariant `getTheme` returns
`'dark'` precisely when the marker is present, and always returns a valid
enum value. -/
theorem marker_invariant_preserved (d : DocState) (s : Storage)
    (sys : SystemSignal) (t key : String) (m : Bool)
    (hd : markerInvariant d) :
    markerInvariant (startupApply d s sys) ∧
    markerInvariant (applyTheme d t) ∧
    markerInvariant (toggleTheme d s).doc ∧
    markerInvariant (setTheme d s t).1 ∧
    markerInvariant (onSwitcherKeydown key d s).doc ∧
    (∀ d2 : DocState, handleSystemChange d s m = Except.ok d2 →
      markerInvariant d2) ∧
    (getTheme d = THEME_DARK ↔ d.dataTheme ≠ none) ∧
    (getTheme d = THEME_LIGHT ∨ getTheme d = THEME_DARK) := by
  refine ⟨markerInvariant_applyTheme d _, markerInvariant_applyTheme d t,
    markerInvariant_applyTheme d _, markerInvariant_applyTheme d t, ?_, ?_, ?_, ?_⟩
  · unfold onSwitcherKeydown
    by_cases h : key = "Enter" ∨ key = " " <;> simp [h]
    · exact markerInvariant_applyTheme d _
    · exact hd
  · intro d2 h2
    unfold handleSystemChange at h2
    obtain ⟨avail, val⟩ := s
    cases avail
    · simp [Storage.getItem] at h2
    · by_cases hf : jsFalsy val = true
      · simp [Storage.getItem, hf] at h2
        subst h2
        exact markerInvariant_applyTheme d _
      · simp [Storage.getItem, hf] at h2
        subst h2
        exact hd
  · rcases hd with h | h <;> rw [getTheme, h] <;> simp <;> decide
  · rcases hd with h | h <;> rw [getTheme, h] <;> simp

/-- C10 witness: instantiated at a dark document with empty available
storage, theme `'light'`, the space key, and a prefers-dark notification. -/
theorem marker_invariant_preserved_witness :
    markerInvariant (toggleTheme ⟨some "dark"⟩ ⟨true, none⟩).doc ∧
    (getTheme ⟨some "dark"⟩ = THEME_DARK ↔
      (⟨some "dark"⟩ : DocState).dataTheme ≠ none) :=
  ⟨(marker_invariant_preserved ⟨some "dark"⟩ ⟨true, none⟩ ⟨true, true⟩
      THEME_LIGHT " " true (Or.inr rfl)).2.2.1,
    (marker_invariant_preserved ⟨some "dark"⟩ ⟨true, none⟩ ⟨true, true⟩
      THEME_LIGHT " " true (Or.inr rfl)).2.2.2.2.2.2.1⟩

/-- C1 (counterexample): with the marker absent and storage available but
empty, `toggleTheme` twice restores the marker yet leaves `'light'` in
storage, so the original persisted value (absence) is not restored: double
toggle is not an involution on storage. -/
theorem toggle_twice_not_involution_on_storage :
    (toggleTheme (toggleTheme ⟨none⟩ ⟨true, none⟩).doc
        (toggleTheme ⟨none⟩ ⟨true, none⟩).storage).doc = ⟨none⟩ ∧
    (toggleTheme (toggleTheme ⟨none⟩ ⟨true, none⟩).doc
        (toggleTheme ⟨none⟩ ⟨true, none⟩).storage).storage
      = ⟨true, some THEME_LIGHT⟩ ∧
    (⟨true, some THEME_LIGHT⟩ : Storage) ≠ ⟨true, none⟩ := by decide

/-- C1 (amended): over a session whose marker is absent or exactly
`"dark"` and whose storage is available, `toggleTheme` twice restores the
document marker, and leaves storage holding the marker-derived current
theme; storage therefore returns to its original persisted value exactly
when that value already was the marker-derived theme. -/
theorem toggle_twice_involution_amended (d : DocState) (s : Storage)
    (hd : markerInvariant d) (hs : s.available = true) :
    (toggleTheme (toggleTheme d s).doc (toggleTheme d s).storage).doc = d ∧
    (toggleTheme (toggleTheme d s).doc (toggleTheme d s).storage).storage.value
      = some (getTheme d) ∧
    (s.value = some (getTheme d) →
      (toggleTheme (toggleTheme d s).doc (toggleTheme d s).storage).storage
        = s) := by
  obtain ⟨avail, val⟩ := s
  simp only at hs
  subst hs
  obtain ⟨dt⟩ := d
  rcases hd with h | h <;> simp only at h <;> subst h
  · refine ⟨rfl, rfl, ?_⟩
    intro hv
    rw [show getTheme ⟨none⟩ = THEME_LIGHT from rfl] at hv
    subst hv
    rfl
  · refine ⟨rfl, rfl, ?_⟩
    intro hv
    rw [show getTheme ⟨some "dark"⟩ = THEME_DARK from rfl] at hv
    subst hv
    rfl

/-- C1 (amended) witness: marker absent and `'light'` stored — double toggle
restores both the marker and the stored value. -/
theorem toggle_twice_involution_amended_witness :
    (toggleTheme (toggleTheme ⟨none⟩ ⟨true, some THEME_LIGHT⟩).doc
        (toggleTheme ⟨none⟩ ⟨true, some THEME_LIGHT⟩).storage).doc = ⟨none⟩ ∧
    (toggleTheme (toggleTheme ⟨none⟩ ⟨true, some THEME_LIGHT⟩).doc
        (toggleTheme ⟨none⟩ ⟨true, some THEME_LIGHT⟩).storage).storage
      = ⟨true, some THEME_LIGHT⟩ := by
  have h := toggle_twice_involution_amended ⟨none⟩ ⟨true, some THEME_LIGHT⟩
    (Or.inl rfl) rfl
  exact ⟨h.1, h.2.2 (by decide)⟩

/-- C2 (counterexample): a malformed non-empty stored value (`"blue"`) is
truthy, so a prefers-dark change notification leaves the document unchanged
instead of applying the new system-derived theme `'dark'`. -/
theorem malformed_stored_value_blocks_system_change :
    handleSystemChange ⟨none⟩ ⟨true, some "blue"⟩ true
      = Except.ok ⟨none⟩ ∧
    applyTheme ⟨none⟩ THEME_DARK ≠ (⟨none⟩ : DocState) :=
  ⟨rfl, by decide⟩

/-- C2 (amended): on a system-preference change notification with storage
available, the new system-derived theme is applied exactly when the stored
value is absent or the empty string; every non-empty stored string — valid
or malformed — causes the notification to be ignored. -/
theorem system_change_follows_js_falsiness (d : DocState) (v : Option String)
    (m : Bool) (hv : v = none ∨ v = some "") :
    handleSystemChange d ⟨true, v⟩ m
      = Except.ok (applyTheme d (if m then THEME_DARK else THEME_LIGHT)) ∧
    (∀ w : String, w ≠ "" →
      handleSystemChange d ⟨true, some w⟩ m = Except.ok d) := by
  constructor
  · rcases hv with rfl | rfl <;> rfl
  · intro w hw
    simp [handleSystemChange, Storage.getItem, jsFalsy, hw]

/-- C2 (amended) witness: empty storage plus a prefers-dark notification
applies the dark theme. -/
theorem system_change_follows_js_falsiness_witness :
    handleSystemChange ⟨none⟩ ⟨true, none⟩ true
      = Except.ok (applyTheme ⟨none⟩ (if true then THEME_DARK else THEME_LIGHT)) :=
  (system_change_follows_js_falsiness ⟨none⟩ none true (Or.inl rfl)).1

/-- C3: `getStoredTheme` and `saveTheme` swallow a storage failure (the read
falls back to the system signal, the write leaves storage unchanged), but
the system-change listener reads storage with no `try`/`catch`, so on
unavailable storage the failure escapes the handler instead of being caught
locally. -/
theorem storage_failure_escapes_system_handler :
    getStoredTheme ⟨false, none⟩ ⟨true, true⟩ = THEME_DARK ∧
    saveTheme ⟨false, none⟩ THEME_DARK = ⟨false, none⟩ ∧
    handleSystemChange ⟨none⟩ ⟨false, none⟩ true = Except.error () :=
  ⟨by decide, by decide, rfl⟩

end ThemeSwitcher
